import Mathlib

/-! AirAware (`script.js`): AQI classification, city ranking and session state

A shallow embedding of the data-handling code of `script.js`:

* `getAQIMeta`, `updateInsights` – the AQI classifier and its guidance copy;
* `arraySort`, `sortedResults`, `cityRows` – the ranking step of `loadGlobalCities`;
* `loadState`, `saveState`, `checkDailyReset`, `toggleEx`, the tab and reset
  handlers – the persisted session state;
* `getAirData`, `fetchAQI`, `getUserLocation` – the request pipeline, with the two
  remote services and the geolocation capability given as inputs.

Numbers that the program only compares with integer thresholds are modelled as
`Int`; a reading may also be JavaScript `undefined`.
-/

namespace AirAware

/-! ## AQI classifier -/

/-- A numeric reading as the program receives it from a parsed payload: an integer
or JavaScript `undefined` (the property is missing). -/
inductive JsNum where
  | undefined
  | num (n : Int)
  deriving DecidableEq, Repr

/-- JavaScript `x <= k` against an integer literal `k`: `undefined` converts to
`NaN`, and every comparison with `NaN` is `false`. -/
def jsLe (x : JsNum) (k : Int) : Bool :=
  match x with
  | .undefined => false
  | .num n => decide (n ≤ k)

/-- The object returned by `getAQIMeta`: `{ label, status, class }`. -/
structure AQIMeta where
  label : String
  status : String
  cssClass : String
  deriving DecidableEq, Repr

/-- `getAQIMeta(aqi)` (script.js 238-244). -/
def getAQIMeta (aqi : JsNum) : AQIMeta :=
  if jsLe aqi 50 then ⟨"Good", "good", "border-good"⟩
  else if jsLe aqi 100 then ⟨"Moderate", "moderate", "border-moderate"⟩
  else if jsLe aqi 150 then ⟨"Unhealthy for Sensitive", "unhealthy", "border-unhealthy"⟩
  else if jsLe aqi 200 then ⟨"Unhealthy", "unhealthy", "border-unhealthy"⟩
  else ⟨"Severe", "severe", "border-severe"⟩

/-- The `advice` object built by `updateInsights`: `{ do, avoid }`. -/
structure Advice where
  doList : List String
  avoid : List String
  deriving DecidableEq, Repr

/-- The advice chosen by `updateInsights(status)` (script.js 282-297). -/
def updateInsights (status : String) : Advice :=
  if status = "good" then
    ⟨["Ventilate indoor spaces", "Outdoor physical activities"], ["No restrictions"]⟩
  else if status = "moderate" then
    ⟨["Monitor sensitive individuals"], ["Burning waste outdoors"]⟩
  else if status = "unhealthy" then
    ⟨["Wear N95 masks outdoors", "Run air purifiers"],
      ["Prolonged outdoor exertion", "High traffic zones"]⟩
  else
    ⟨["Remain indoors", "Seal windows", "Use air filtration"], ["All outdoor activities"]⟩

/-! ## Ranking step of `loadGlobalCities` -/

/-- One element of `results` in `loadGlobalCities`: the city name and the
`current.us_aqi` of its payload. -/
structure CityResult where
  name : String
  us_aqi : Int
  deriving DecidableEq, Repr

/-- Insertion of `x` in front of the first element it does not have to follow. -/
def insertByCmp {α : Type} (cmp : α → α → Int) (x : α) : List α → List α
  | [] => [x]
  | y :: ys => if cmp x y ≤ 0 then x :: y :: ys else y :: insertByCmp cmp x ys

/-- `Array.prototype.sort(cmp)`: a stable sort (ECMAScript 2019) by a comparator
whose result is negative, zero or positive. For a consistent comparator the result
of a stable sort does not depend on the algorithm; it is computed here by
insertion, each element entering in front of the later elements it need not follow. -/
def arraySort {α : Type} (cmp : α → α → Int) : List α → List α
  | [] => []
  | x :: xs => insertByCmp cmp x (arraySort cmp xs)

/-- The comparator of script.js 209: `(a, b) => b.current.us_aqi - a.current.us_aqi`. -/
def byAqiDesc (a b : CityResult) : Int :=
  b.us_aqi - a.us_aqi

/-- `sorted` of script.js 209. -/
def sortedResults (results : List CityResult) : List CityResult :=
  arraySort byAqiDesc results

/-- What the `forEach` callback of script.js 212-230 computes for one item: its
1-based rank, its name, `aqi` and `meta = getAQIMeta(aqi)`. -/
structure CityRow where
  rank : Nat
  name : String
  aqi : Int
  info : AQIMeta
  deriving DecidableEq, Repr

/-- The rows appended by `sorted.forEach((item, idx) => ...)`, starting at index `idx`. -/
def renderRows (idx : Nat) : List CityResult → List CityRow
  | [] => []
  | item :: rest =>
      ⟨idx + 1, item.name, item.us_aqi, getAQIMeta (.num item.us_aqi)⟩ :: renderRows (idx + 1) rest

/-- The ranking step of `loadGlobalCities` (script.js 209-230) on the fetched `results`. -/
def cityRows (results : List CityResult) : List CityRow :=
  renderRows 0 (sortedResults results)

/-- The fetched result a row was rendered from. -/
def CityRow.result (r : CityRow) : CityResult :=
  ⟨r.name, r.aqi⟩

/-! ## Session state and its persisted record -/

/-- The global `appState` object. `null` is `none`. -/
structure AppState where
  currentCity : Option String
  completedExercises : List String
  lastVisitDate : Option String
  category : String
  deriving DecidableEq, Repr

/-- The `appState` literal of script.js 11-16. -/
def initialAppState : AppState :=
  { currentCity := none, completedExercises := [], lastVisitDate := none,
    category := "weight-loss" }

/-- The object that `JSON.parse` yields for the text kept under the key
`airaware_v2`, read at the four keys of the session state. A key may be missing
from the record; a present `currentCity` or `lastVisitDate` may be `null`. -/
structure StoredRecord where
  currentCity : Option (Option String)
  completedExercises : Option (List String)
  lastVisitDate : Option (Option String)
  category : Option String
  deriving DecidableEq, Repr

/-- The record that `JSON.stringify(appState)` writes, as `JSON.parse` reads it
back: all four keys present, each with the value it has in memory (strings, `null`
and arrays of strings are kept by the JSON text). -/
def stringify (s : AppState) : StoredRecord :=
  { currentCity := some s.currentCity, completedExercises := some s.completedExercises,
    lastVisitDate := some s.lastVisitDate, category := some s.category }

/-- The object spread `{ ...appState, ...parsed }`: a key of `parsed` replaces the
one of `appState`, a missing key keeps it. -/
def spread (s : AppState) (parsed : StoredRecord) : AppState :=
  { currentCity := parsed.currentCity.getD s.currentCity,
    completedExercises := parsed.completedExercises.getD s.completedExercises,
    lastVisitDate := parsed.lastVisitDate.getD s.lastVisitDate,
    category := parsed.category.getD s.category }

/-! ## The page and the outside world -/

/-- An exception value the pipeline can raise. -/
inductive JsError where
  /-- The promise of `fetch` rejected. -/
  | network
  /-- The promise of `res.json()` rejected: the body is not JSON. -/
  | syntaxError
  /-- A destructuring of `undefined`. -/
  | typeError
  /-- The value of `new Error(message)`. -/
  | error (message : String)
  deriving DecidableEq, Repr

/-- The `current` object of an air-quality payload. Each reading is only compared
with thresholds or displayed. -/
structure AirCurrent where
  us_aqi : JsNum
  pm10 : JsNum
  pm2_5 : JsNum
  deriving DecidableEq, Repr

/-- A parsed air-quality payload; `current` may be missing. -/
structure AirData where
  current : Option AirCurrent
  deriving DecidableEq, Repr

/-- One element of the geocoder result list. The coordinates are fixed-point numbers
that the program only forwards to the air-quality service. -/
structure GeoCandidate where
  latitude : Int
  longitude : Int
  name : String
  country : String
  deriving DecidableEq, Repr

/-- A parsed geocoder payload; `results` may be missing. -/
structure GeoData where
  results : Option (List GeoCandidate)
  deriving DecidableEq, Repr

/-- What `fetch(url)` followed by `.json()` gives. -/
inductive Response (α : Type) where
  | networkError
  | invalidJson
  | json (body : α)
  deriving DecidableEq, Repr

/-- The two remote services, by the parameters of the request URL. -/
structure Services where
  geocode : String → Response GeoData
  airQuality : Int → Int → Response AirData

/-- What `navigator.geolocation` does for one request. -/
inductive Geolocation where
  /-- `navigator.geolocation` is missing. -/
  | unavailable
  /-- `getCurrentPosition` calls its error callback. -/
  | failed
  /-- `getCurrentPosition` calls its success callback with these coordinates. -/
  | position (latitude longitude : Int)
  deriving DecidableEq, Repr

/-- A request issued with `fetch`. -/
inductive Request where
  | geocode (name : String)
  | airQuality (latitude longitude : Int)
  deriving DecidableEq, Repr

/-- The DOM nodes the pipeline writes. -/
structure Dashboard where
  /-- Text of `#city-name`. -/
  cityName : String
  /-- Text of `#aqi-value`. -/
  aqiValue : JsNum
  /-- Text of `#aqi-status`. -/
  statusText : String
  /-- Class of `#aqi-status`. -/
  statusClass : String
  /-- Class of `#aqi-card`. -/
  cardClass : String
  /-- Text of `#pm25`. -/
  pm25 : JsNum
  /-- Text of `#pm10`. -/
  pm10 : JsNum
  /-- Items of `#advice-do` and `#advice-avoid`. -/
  advice : Advice
  /-- Text of `#error-message`. -/
  errorText : String
  /-- Whether `#error-message` carries the class `hidden`. -/
  errorHidden : Bool
  deriving DecidableEq, Repr

/-- Everything the modelled functions read or write. -/
structure World where
  appState : AppState
  /-- The item `airaware_v2` of `localStorage`, parsed; `none` when there is none. -/
  storage : Option StoredRecord
  dashboard : Dashboard
  /-- Values passed to `console.error`, oldest first. -/
  console : List JsError
  /-- Requests issued, oldest first. -/
  requests : List Request
  /-- Rejections of promises nobody handles, oldest first. -/
  unhandled : List JsError
  deriving DecidableEq, Repr

/-- The result of running a function body that may throw: the world it leaves and
the exception, if one escaped. -/
structure Run where
  world : World
  thrown : Option JsError
  deriving DecidableEq, Repr

/-- `DEFAULT_CITY` (script.js 8). -/
def DEFAULT_CITY : String := "London"

/-- The message `fetchAQI` passes to `showError` (script.js 160). -/
def loadFailedMessage : String := "Could not load data. Please try another city."

/-! ## State functions -/

/-- `loadState()` (script.js 65-68). -/
def loadState (w : World) : World :=
  match w.storage with
  | none => w
  | some parsed => { w with appState := spread w.appState parsed }

/-- `saveState()` (script.js 70-72). -/
def saveState (w : World) : World :=
  { w with storage := some (stringify w.appState) }

/-- `checkDailyReset()` (script.js 74-81); `today` is `new Date().toDateString()`. -/
def checkDailyReset (today : String) (w : World) : World :=
  if w.appState.lastVisitDate ≠ some today then
    saveState { w with appState :=
      { w.appState with completedExercises := [], lastVisitDate := some today } }
  else w

/-- The click handler of a `.tab` button (script.js 106-111); `category` is
`btn.dataset.category`. Rendering is not modelled. -/
def tabClick (category : String) (w : World) : World :=
  { w with appState := { w.appState with category := category } }

/-- The click handler of `#reset-progress` (script.js 115-122); `confirmed` is the
answer to `confirm('Reset daily progress?')`. -/
def resetProgress (confirmed : Bool) (w : World) : World :=
  if confirmed then
    saveState { w with appState := { w.appState with completedExercises := [] } }
  else w

/-- `Array.prototype.indexOf(id)`: the index of the first element equal to `id`,
or `-1` when there is none. -/
def indexOf (id : String) : List String → Int
  | [] => -1
  | x :: xs =>
      if x = id then 0
      else if indexOf id xs = -1 then -1 else indexOf id xs + 1

/-- `window.toggleEx(id)` (script.js 328-336): `push(id)` appends, `splice(idx, 1)`
removes the element at `idx`. Rendering is not modelled. -/
def toggleEx (id : String) (w : World) : World :=
  let idx := indexOf id w.appState.completedExercises
  saveState { w with appState := { w.appState with completedExercises :=
    (if idx = -1 then w.appState.completedExercises ++ [id]
     else w.appState.completedExercises.eraseIdx idx.toNat) } }

/-! ## Request pipeline -/

/-- `setStatus(msg)` (script.js 348-351). -/
def setStatus (msg : String) (w : World) : World :=
  { w with dashboard := { w.dashboard with statusText := msg, statusClass := "status-badge" } }

/-- `showError(msg)` (script.js 353-357). -/
def showError (msg : String) (w : World) : World :=
  { w with dashboard := { w.dashboard with errorText := msg, errorHidden := false } }

/-- `updateDashboard(data, label)` (script.js 251-276): destructuring `data` throws
when it is `undefined`. -/
def updateDashboard (data : Option AirCurrent) (label : String) (w : World) : Run :=
  match data with
  | none => ⟨w, some .typeError⟩
  | some cur =>
      let info := getAQIMeta cur.us_aqi
      ⟨{ w with dashboard :=
          { w.dashboard with
            cityName := label
            aqiValue := cur.us_aqi
            statusText := info.label
            statusClass := "status-badge status-" ++ info.status
            cardClass := "card aqi-hero " ++ info.cssClass
            pm25 := cur.pm2_5
            pm10 := cur.pm10
            advice := updateInsights info.status
            errorHidden := true } }, none⟩

/-- `getAirData(lat, lon, label)` (script.js 166-172). -/
def getAirData (sv : Services) (lat lon : Int) (label : String) (w : World) : Run :=
  let w1 := { w with requests := w.requests ++ [.airQuality lat lon] }
  match sv.airQuality lat lon with
  | .networkError => ⟨w1, some .network⟩
  | .invalidJson => ⟨w1, some .syntaxError⟩
  | .json data => updateDashboard data.current label w1

/-- The `try` block of `fetchAQI` (script.js 145-156). An empty `results` array is
truthy, so it passes the test of line 148 and `results[0]` is `undefined`. -/
def fetchAQITry (sv : Services) (city : String) (w : World) : Run :=
  let w1 := { w with requests := w.requests ++ [.geocode city] }
  match sv.geocode city with
  | .networkError => ⟨w1, some .network⟩
  | .invalidJson => ⟨w1, some .syntaxError⟩
  | .json geoData =>
      match geoData.results with
      | none => ⟨w1, some (.error "City not found")⟩
      | some [] => ⟨w1, some .typeError⟩
      | some (first :: _) =>
          let label := first.name ++ ", " ++ first.country
          let r := getAirData sv first.latitude first.longitude label w1
          match r.thrown with
          | some e => ⟨r.world, some e⟩
          | none =>
              ⟨saveState { r.world with
                  appState := { r.world.appState with currentCity := some first.name } }, none⟩

/-- `fetchAQI(city)` (script.js 142-164): the `catch` block logs the exception and
shows the one message. -/
def fetchAQI (sv : Services) (city : String) (w : World) : World :=
  let r := fetchAQITry sv city (setStatus "Loading..." w)
  match r.thrown with
  | some e => showError loadFailedMessage { r.world with console := r.world.console ++ [e] }
  | none => r.world

/-- `getUserLocation()` (script.js 174-182). The promise of `getAirData` in the
success callback has no handler. -/
def getUserLocation (sv : Services) (geo : Geolocation) (w : World) : World :=
  match geo with
  | .unavailable => fetchAQI sv DEFAULT_CITY w
  | .failed => fetchAQI sv DEFAULT_CITY (setStatus "Locating..." w)
  | .position lat lon =>
      let r := getAirData sv lat lon "Your Location" (setStatus "Locating..." w)
      match r.thrown with
      | some e => { r.world with unhandled := r.world.unhandled ++ [e] }
      | none => r.world

/-! ## Concrete inputs -/

/-- A page on which nothing has been displayed yet. -/
def blankDashboard : Dashboard :=
  { cityName := "", aqiValue := .undefined, statusText := "", statusClass := "",
    cardClass := "", pm25 := .undefined, pm10 := .undefined, advice := ⟨[], []⟩,
    errorText := "", errorHidden := true }

/-- The world at page load with nothing persisted. -/
def freshWorld : World :=
  { appState := initialAppState, storage := none, dashboard := blankDashboard,
    console := [], requests := [], unhandled := [] }

/-- The world `freshWorld` with a given list of completed exercises. -/
def worldWithCompleted (completed : List String) : World :=
  { freshWorld with appState := { initialAppState with completedExercises := completed } }

/-- A geocoder candidate for Paris, coordinates in hundredths of a degree. -/
def parisCandidate : GeoCandidate :=
  { latitude := 4885, longitude := 235, name := "Paris", country := "France" }

/-- Both services answer: Paris, with `us_aqi` 75, `pm10` 30 and `pm2_5` 20. -/
def parisServices : Services :=
  { geocode := fun _ => .json ⟨some [parisCandidate]⟩
    airQuality := fun _ _ => .json ⟨some ⟨.num 75, .num 30, .num 20⟩⟩ }

/-- The geocoder answers with Paris; the air-quality payload is `{ "current": {} }`. -/
def emptyReadingServices : Services :=
  { geocode := fun _ => .json ⟨some [parisCandidate]⟩
    airQuality := fun _ _ => .json ⟨some ⟨.undefined, .undefined, .undefined⟩⟩ }

/-- The geocoder answers `{ "results": [] }`. -/
def emptyResultsServices : Services :=
  { geocode := fun _ => .json ⟨some []⟩
    airQuality := fun _ _ => .json ⟨some ⟨.num 75, .num 30, .num 20⟩⟩ }

/-- The geocoder answers with Paris; the air-quality request fails. -/
def airDownServices : Services :=
  { geocode := fun _ => .json ⟨some [parisCandidate]⟩
    airQuality := fun _ _ => .networkError }

/-- The persisted record holds the session state of memory in every field. -/
def inSync (w : World) : Prop :=
  w.storage = some (stringify w.appState)

instance (w : World) : Decidable (inSync w) := by
  unfold inSync
  infer_instance

/-- The shape section 6 of the specification gives an air-quality payload: a
`current` object holding the three readings. -/
def AirData.wellFormed (d : AirData) : Bool :=
  match d.current with
  | none => false
  | some cur => cur.us_aqi != .undefined && cur.pm10 != .undefined && cur.pm2_5 != .undefined

/-! ## Lemmas on the sort -/

theorem insertByCmp_perm {α : Type} (cmp : α → α → Int) (x : α) (l : List α) :
    (insertByCmp cmp x l).Perm (x :: l) := by
  induction l with
  | nil => exact List.Perm.refl _
  | cons y ys ih =>
      unfold insertByCmp
      split
      · exact List.Perm.refl _
      · exact (List.Perm.cons y ih).trans (List.Perm.swap x y ys)

theorem arraySort_perm {α : Type} (cmp : α → α → Int) (l : List α) :
    (arraySort cmp l).Perm l := by
  induction l with
  | nil => exact List.Perm.refl _
  | cons x xs ih =>
      unfold arraySort
      exact (insertByCmp_perm cmp x _).trans (List.Perm.cons x ih)

/-- Inserting into a list that is non-increasing in AQI keeps it so. -/
theorem insertByCmp_sorted (x : CityResult) (l : List CityResult)
    (h : l.Pairwise (fun a b => b.us_aqi ≤ a.us_aqi)) :
    (insertByCmp byAqiDesc x l).Pairwise (fun a b => b.us_aqi ≤ a.us_aqi) := by
  induction l with
  | nil => simp [insertByCmp]
  | cons y ys ih =>
      have hy := List.pairwise_cons.mp h
      unfold insertByCmp
      split
      · rename_i hle
        have hxy : y.us_aqi ≤ x.us_aqi := by
          simp only [byAqiDesc] at hle
          omega
        refine List.pairwise_cons.mpr ⟨?_, h⟩
        intro b hb
        rcases List.mem_cons.mp hb with rfl | hb
        · exact hxy
        · exact le_trans (hy.1 b hb) hxy
      · rename_i hgt
        have hxy : x.us_aqi ≤ y.us_aqi := by
          simp only [byAqiDesc] at hgt
          omega
        refine List.pairwise_cons.mpr ⟨?_, ih hy.2⟩
        intro b hb
        rcases List.mem_cons.mp ((insertByCmp_perm byAqiDesc x ys).subset hb) with rfl | hb
        · exact hxy
        · exact hy.1 b hb

theorem sortedResults_sorted (results : List CityResult) :
    (sortedResults results).Pairwise (fun a b => b.us_aqi ≤ a.us_aqi) := by
  unfold sortedResults
  induction results with
  | nil => simp [arraySort]
  | cons x xs ih =>
      unfold arraySort
      exact insertByCmp_sorted x _ ih

/-- Insertion keeps the entries of every AQI value in their order, the new entry first. -/
theorem insertByCmp_filter (v : Int) (x : CityResult) (l : List CityResult) :
    (insertByCmp byAqiDesc x l).filter (fun c => decide (c.us_aqi = v)) =
      (x :: l).filter (fun c => decide (c.us_aqi = v)) := by
  induction l with
  | nil => simp [insertByCmp]
  | cons y ys ih =>
      unfold insertByCmp
      split
      · rfl
      · rename_i hgt
        have hne : x.us_aqi ≠ y.us_aqi := by
          simp only [byAqiDesc] at hgt
          omega
        by_cases hx : x.us_aqi = v
        · have hyv : ¬ y.us_aqi = v := fun hyv => hne (hx.trans hyv.symm)
          rw [List.filter_cons_of_neg (by simpa using hyv), ih]
          rw [List.filter_cons_of_pos (by simpa using hx)]
          rw [List.filter_cons_of_pos (by simpa using hx)]
          rw [List.filter_cons_of_neg (by simpa using hyv)]
        · by_cases hyv : y.us_aqi = v
          · rw [List.filter_cons_of_pos (by simpa using hyv), ih]
            rw [List.filter_cons_of_neg (by simpa using hx)]
            rw [List.filter_cons_of_neg (by simpa using hx)]
            rw [List.filter_cons_of_pos (by simpa using hyv)]
          · rw [List.filter_cons_of_neg (by simpa using hyv), ih]
            rw [List.filter_cons_of_neg (by simpa using hx)]
            rw [List.filter_cons_of_neg (by simpa using hx)]
            rw [List.filter_cons_of_neg (by simpa using hyv)]

theorem sortedResults_filter (v : Int) (results : List CityResult) :
    (sortedResults results).filter (fun c => decide (c.us_aqi = v)) =
      results.filter (fun c => decide (c.us_aqi = v)) := by
  unfold sortedResults
  induction results with
  | nil => simp [arraySort]
  | cons x xs ih =>
      unfold arraySort
      rw [insertByCmp_filter]
      by_cases hx : x.us_aqi = v
      · rw [List.filter_cons_of_pos (by simpa using hx),
          List.filter_cons_of_pos (by simpa using hx), ih]
      · rw [List.filter_cons_of_neg (by simpa using hx),
          List.filter_cons_of_neg (by simpa using hx), ih]

theorem renderRows_result (idx : Nat) (l : List CityResult) :
    (renderRows idx l).map CityRow.result = l := by
  induction l generalizing idx with
  | nil => rfl
  | cons x xs ih => simp [renderRows, CityRow.result, ih]

theorem renderRows_aqi (idx : Nat) (l : List CityResult) :
    (renderRows idx l).map (fun r => r.aqi) = l.map (fun c => c.us_aqi) := by
  induction l generalizing idx with
  | nil => rfl
  | cons x xs ih => simp [renderRows, ih]

theorem renderRows_info (idx : Nat) (l : List CityResult) :
    ∀ r ∈ renderRows idx l, r.info = getAQIMeta (.num r.aqi) := by
  induction l generalizing idx with
  | nil => intro r hr; simp [renderRows] at hr
  | cons x xs ih =>
      intro r hr
      simp only [renderRows, List.mem_cons] at hr
      rcases hr with rfl | hr
      · rfl
      · exact ih _ r hr

theorem renderRows_filter (v : Int) (idx : Nat) (l : List CityResult) :
    ((renderRows idx l).filter (fun r => decide (r.aqi = v))).map CityRow.result =
      l.filter (fun c => decide (c.us_aqi = v)) := by
  induction l generalizing idx with
  | nil => rfl
  | cons x xs ih =>
      by_cases hx : x.us_aqi = v
      · subst hx
        simp [renderRows, CityRow.result, ih]
      · simp [renderRows, hx, ih]

/-! ## Claims on classification and ranking -/

/-- C1: for every integer `aqi ≥ 0`, `getAQIMeta` labels it `Good` exactly on
`[0,50]`, `Moderate` exactly on `(50,100]`, `Unhealthy for Sensitive` exactly on
`(100,150]`, `Unhealthy` exactly on `(150,200]` and `Severe` exactly above 200; the
boundary values 50, 100, 150 and 200 get the lower tier. -/
theorem getAQIMeta_tier (aqi : Int) (h : 0 ≤ aqi) :
    ((getAQIMeta (.num aqi)).label = "Good" ↔ 0 ≤ aqi ∧ aqi ≤ 50) ∧
    ((getAQIMeta (.num aqi)).label = "Moderate" ↔ 50 < aqi ∧ aqi ≤ 100) ∧
    ((getAQIMeta (.num aqi)).label = "Unhealthy for Sensitive" ↔ 100 < aqi ∧ aqi ≤ 150) ∧
    ((getAQIMeta (.num aqi)).label = "Unhealthy" ↔ 150 < aqi ∧ aqi ≤ 200) ∧
    ((getAQIMeta (.num aqi)).label = "Severe" ↔ 200 < aqi) ∧
    (getAQIMeta (.num 50)).label = "Good" ∧
    (getAQIMeta (.num 100)).label = "Moderate" ∧
    (getAQIMeta (.num 150)).label = "Unhealthy for Sensitive" ∧
    (getAQIMeta (.num 200)).label = "Unhealthy" := by
  refine ⟨?_, ?_, ?_, ?_, ?_, by decide, by decide, by decide, by decide⟩ <;>
  · simp only [getAQIMeta, jsLe]
    by_cases h1 : aqi ≤ 50 <;> by_cases h2 : aqi ≤ 100 <;> by_cases h3 : aqi ≤ 150 <;>
      by_cases h4 : aqi ≤ 200 <;> simp [h1, h2, h3, h4] <;> omega

/-- Witness of C1 at `aqi = 75`. -/
theorem getAQIMeta_tier_witness :
    (0 : Int) ≤ 75 ∧ ((getAQIMeta (.num 75)).label = "Moderate" ↔ (50 : Int) < 75 ∧ (75 : Int) ≤ 100) :=
  ⟨by decide, (getAQIMeta_tier 75 (by decide)).2.1⟩

/-- C2: the ranking step of `loadGlobalCities` yields a permutation of the fetched
results that is non-increasing in AQI, keeps the entries of each AQI value in their
input order, and gives each row the tier of its own AQI; AQIs `[42, 180, 90]` come
out as `[180, 90, 42]` with tiers `Unhealthy`, `Moderate`, `Good`. -/
theorem cityRows_ranking (results : List CityResult) :
    ((cityRows results).map CityRow.result).Perm results ∧
    ((cityRows results).map (fun r => r.aqi)).Pairwise (fun a b => b ≤ a) ∧
    (∀ v : Int, ((cityRows results).filter (fun r => decide (r.aqi = v))).map CityRow.result =
      results.filter (fun c => decide (c.us_aqi = v))) ∧
    (∀ r ∈ cityRows results, r.info = getAQIMeta (.num r.aqi)) ∧
    (∀ n1 n2 n3 : String,
      (cityRows [⟨n1, 42⟩, ⟨n2, 180⟩, ⟨n3, 90⟩]).map (fun r => (r.name, r.aqi, r.info.label)) =
        [(n2, 180, "Unhealthy"), (n3, 90, "Moderate"), (n1, 42, "Good")]) := by
  refine ⟨?_, ?_, ?_, ?_, ?_⟩
  · unfold cityRows
    rw [renderRows_result]
    exact arraySort_perm _ _
  · unfold cityRows
    rw [renderRows_aqi]
    exact List.pairwise_map.mpr (sortedResults_sorted results)
  · intro v
    unfold cityRows
    rw [renderRows_filter, sortedResults_filter]
  · exact renderRows_info 0 _
  · intro n1 n2 n3
    rfl

/-! ## Lemmas on the session state -/

theorem indexOf_ge (id : String) (l : List String) : -1 ≤ indexOf id l := by
  induction l with
  | nil => simp [indexOf]
  | cons x xs ih =>
      unfold indexOf
      split
      · decide
      · split
        · decide
        · omega

theorem indexOf_eq_neg_one_iff (id : String) (l : List String) :
    indexOf id l = -1 ↔ id ∉ l := by
  induction l with
  | nil => simp [indexOf]
  | cons x xs ih =>
      have hge := indexOf_ge id xs
      unfold indexOf
      by_cases hx : x = id
      · subst hx
        simp
      · have hx2 : ¬ id = x := fun h => hx h.symm
        by_cases hi : indexOf id xs = -1
        · simp [hx, hx2, hi, ih.mp hi]
        · have hmem : id ∈ xs := by
            by_contra hn
            exact hi (ih.mpr hn)
          simp only [hx, hi, if_false, List.mem_cons, hx2, hmem, false_or, not_true_eq_false,
            iff_false]
          omega

/-- When `id` is found, `splice(idx, 1)` removes its first occurrence. -/
theorem eraseIdx_indexOf (id : String) (l : List String) (h : indexOf id l ≠ -1) :
    l.eraseIdx (indexOf id l).toNat = l.erase id := by
  induction l with
  | nil => simp [indexOf] at h
  | cons x xs ih =>
      have hge := indexOf_ge id xs
      unfold indexOf at h ⊢
      by_cases hx : x = id
      · subst hx
        simp
      · by_cases hi : indexOf id xs = -1
        · simp [hx, hi] at h
        · have hnat : (indexOf id xs + 1).toNat = (indexOf id xs).toNat + 1 := by omega
          have hbeq : (x == id) = false := by simpa using hx
          simp only [hx, hi, if_false, hnat, List.eraseIdx_cons_succ, ih hi]
          rw [List.erase_cons, hbeq]
          rfl

/-- The list `toggleEx(id)` leaves in `appState.completedExercises`. -/
theorem toggleEx_completed (id : String) (w : World) :
    (toggleEx id w).appState.completedExercises =
      if id ∈ w.appState.completedExercises then w.appState.completedExercises.erase id
      else w.appState.completedExercises ++ [id] := by
  by_cases hmem : id ∈ w.appState.completedExercises
  · have hi : indexOf id w.appState.completedExercises ≠ -1 := fun h =>
      (indexOf_eq_neg_one_iff id _).mp h hmem
    simp [toggleEx, saveState, hi, hmem, eraseIdx_indexOf id _ hi]
  · have hi : indexOf id w.appState.completedExercises = -1 :=
      (indexOf_eq_neg_one_iff id _).mpr hmem
    simp [toggleEx, saveState, hi, hmem]

theorem toggleEx_lastVisitDate (id : String) (w : World) :
    (toggleEx id w).appState.lastVisitDate = w.appState.lastVisitDate := rfl

theorem toggles_lastVisitDate (ids : List String) (w : World) :
    (ids.foldl (fun acc id => toggleEx id acc) w).appState.lastVisitDate =
      w.appState.lastVisitDate := by
  induction ids generalizing w with
  | nil => rfl
  | cons id rest ih => rw [List.foldl_cons, ih, toggleEx_lastVisitDate]

theorem checkDailyReset_lastVisitDate (today : String) (w : World) :
    (checkDailyReset today w).appState.lastVisitDate = some today := by
  unfold checkDailyReset
  split
  · rfl
  · rename_i h
    simpa using h

theorem checkDailyReset_same_day (today : String) (w : World)
    (h : w.appState.lastVisitDate = some today) : checkDailyReset today w = w := by
  simp [checkDailyReset, h]

/-- The tickboxes of a state built by `toggleEx` alone hold no id twice. -/
theorem toggleEx_nodup (id : String) (w : World) (h : w.appState.completedExercises.Nodup) :
    (toggleEx id w).appState.completedExercises.Nodup := by
  rw [toggleEx_completed]
  split
  · exact h.erase id
  · rename_i hmem
    exact List.Nodup.append h (List.nodup_singleton id) (by simpa using hmem)

/-! ## Claims on the session state -/

/-- C3: `checkDailyReset(today)` changes nothing when `lastVisitDate` is `today`, so
a second call on the same day changes nothing whatever was toggled in between; when
`lastVisitDate` is another date or absent it empties `completedExercises` and sets
`lastVisitDate` to `today`; `currentCity` and `category` are kept in both cases. -/
theorem checkDailyReset_spec (today : String) (w : World) :
    (w.appState.lastVisitDate = some today → checkDailyReset today w = w) ∧
    (w.appState.lastVisitDate ≠ some today →
      (checkDailyReset today w).appState.completedExercises = [] ∧
      (checkDailyReset today w).appState.lastVisitDate = some today) ∧
    (∀ ids : List String,
      checkDailyReset today
          (ids.foldl (fun acc id => toggleEx id acc) (checkDailyReset today w)) =
        ids.foldl (fun acc id => toggleEx id acc) (checkDailyReset today w)) ∧
    (checkDailyReset today w).appState.currentCity = w.appState.currentCity ∧
    (checkDailyReset today w).appState.category = w.appState.category := by
  refine ⟨checkDailyReset_same_day today w, ?_, ?_, ?_, ?_⟩
  · intro h
    simp [checkDailyReset, h, saveState]
  · intro ids
    apply checkDailyReset_same_day
    rw [toggles_lastVisitDate, checkDailyReset_lastVisitDate]
  · unfold checkDailyReset
    split <;> rfl
  · unfold checkDailyReset
    split <;> rfl

/-- C4, as stated, fails: with `wl1` twice in `completedExercises`, two calls of
`toggleEx('wl1')` remove both copies, and `wl1` is no longer a member. -/
theorem toggleEx_twice_duplicate :
    "wl1" ∈ (worldWithCompleted ["wl1", "wl1"]).appState.completedExercises ∧
    "wl1" ∉ (toggleEx "wl1" (toggleEx "wl1"
      (worldWithCompleted ["wl1", "wl1"]))).appState.completedExercises := by
  decide

/-- C4, amended: when `id` occurs at most once in `completedExercises`, two calls of
`toggleEx(id)` in a row leave every id a member exactly when it was one before. -/
theorem toggleEx_twice (id : String) (w : World)
    (h : w.appState.completedExercises.count id ≤ 1) (x : String) :
    x ∈ (toggleEx id (toggleEx id w)).appState.completedExercises ↔
      x ∈ w.appState.completedExercises := by
  rw [toggleEx_completed, toggleEx_completed]
  by_cases hmem : id ∈ w.appState.completedExercises
  · have hnot : id ∉ w.appState.completedExercises.erase id := by
      intro hin
      have h1 := List.count_pos_iff.mpr hin
      rw [List.count_erase_self] at h1
      omega
    simp only [hmem, if_true, hnot, if_false, List.mem_append, List.mem_singleton]
    by_cases hx : x = id
    · subst hx
      simp [hmem]
    · simp [hx, List.mem_erase_of_ne hx]
  · have herase : (w.appState.completedExercises ++ [id]).erase id =
        w.appState.completedExercises := by
      rw [List.erase_append_right _ hmem]
      simp
    simp [hmem, herase]

/-- Witness of the amended C4: ticking and unticking `wl2` next to a ticked `wl1`. -/
theorem toggleEx_twice_witness :
    (worldWithCompleted ["wl1"]).appState.completedExercises.count "wl2" ≤ 1 ∧
    ("wl1" ∈ (toggleEx "wl2" (toggleEx "wl2"
        (worldWithCompleted ["wl1"]))).appState.completedExercises ↔
      "wl1" ∈ (worldWithCompleted ["wl1"]).appState.completedExercises) :=
  ⟨by decide, toggleEx_twice "wl2" (worldWithCompleted ["wl1"]) (by decide) "wl1"⟩

/-- C5: `loadState` run on the initial `appState` after `saveState` persisted a
state `s` yields `s` in all four fields; with nothing persisted it yields the
defaults: no city, no completed exercise, no visit date, category `weight-loss`. -/
theorem loadState_saveState (s : AppState) (w0 w : World) :
    (loadState { w with appState := initialAppState,
                        storage := (saveState { w0 with appState := s }).storage }).appState = s ∧
    (loadState { w with appState := initialAppState, storage := none }).appState =
      initialAppState ∧
    initialAppState.currentCity = none ∧ initialAppState.completedExercises = [] ∧
    initialAppState.lastVisitDate = none ∧ initialAppState.category = "weight-loss" :=
  ⟨rfl, rfl, rfl, rfl, rfl, rfl⟩

/-! ## Lemmas on the pipeline -/

/-- The operations that call `saveState` leave the record equal to memory. -/
theorem saving_operations_inSync (w : World) :
    inSync (saveState w) ∧
    (∀ id : String, inSync (toggleEx id w)) ∧
    inSync (resetProgress true w) ∧
    (∀ today : String, w.appState.lastVisitDate ≠ some today →
      inSync (checkDailyReset today w)) := by
  refine ⟨rfl, fun _ => rfl, rfl, ?_⟩
  intro today h
  simp [checkDailyReset, h, inSync, saveState]

/-- The tab handler does not touch the stored record. -/
theorem tabClick_storage (category : String) (w : World) :
    (tabClick category w).storage = w.storage ∧
    (tabClick category w).appState.category = category := ⟨rfl, rfl⟩

/-- With the result list absent, `fetchAQI` raises `City not found`, issues no
air-quality request and shows the message. -/
theorem fetchAQI_results_absent (sv : Services) (city : String) (w : World)
    (h : sv.geocode city = .json ⟨none⟩) :
    (fetchAQI sv city w).console = w.console ++ [.error "City not found"] ∧
    (fetchAQI sv city w).requests = w.requests ++ [.geocode city] ∧
    (fetchAQI sv city w).dashboard.errorText = loadFailedMessage ∧
    (fetchAQI sv city w).dashboard.errorHidden = false := by
  simp [fetchAQI, fetchAQITry, h, showError, setStatus]

/-- With an empty result list, `fetchAQI` raises a `TypeError`. -/
theorem fetchAQI_results_empty (sv : Services) (city : String) (w : World)
    (h : sv.geocode city = .json ⟨some []⟩) :
    (fetchAQI sv city w).console = w.console ++ [.typeError] ∧
    (fetchAQI sv city w).requests = w.requests ++ [.geocode city] := by
  simp [fetchAQI, fetchAQITry, h, showError, setStatus]

/-- On the search path a failed air-quality fetch ends with the message shown. -/
theorem fetchAQI_air_failure (sv : Services) (city : String) (w : World)
    (c : GeoCandidate) (rest : List GeoCandidate)
    (hgeo : sv.geocode city = .json ⟨some (c :: rest)⟩)
    (hair : sv.airQuality c.latitude c.longitude = .networkError ∨
      sv.airQuality c.latitude c.longitude = .invalidJson ∨
      sv.airQuality c.latitude c.longitude = .json ⟨none⟩) :
    (fetchAQI sv city w).dashboard.errorText = loadFailedMessage ∧
    (fetchAQI sv city w).dashboard.errorHidden = false := by
  rcases hair with h | h | h <;>
    simp [fetchAQI, fetchAQITry, getAirData, updateDashboard, hgeo, h, showError, setStatus]

/-- On the geolocation path a failed air-quality fetch leaves the error node as it
was and the rejection unhandled. -/
theorem getUserLocation_air_failure (sv : Services) (lat lon : Int) (w : World)
    (hair : sv.airQuality lat lon = .networkError ∨
      sv.airQuality lat lon = .invalidJson ∨
      sv.airQuality lat lon = .json ⟨none⟩) :
    (getUserLocation sv (.position lat lon) w).dashboard.errorText = w.dashboard.errorText ∧
    (getUserLocation sv (.position lat lon) w).dashboard.errorHidden =
      w.dashboard.errorHidden ∧
    (getUserLocation sv (.position lat lon) w).unhandled ≠ w.unhandled := by
  rcases hair with h | h | h <;>
    simp [getUserLocation, getAirData, updateDashboard, h, setStatus]

/-! ## Claims on the pipeline -/

/-- C6 fails on the tab handler: from a state that is persisted in full, selecting
the tab `yoga` sets `category` to `yoga` in memory while the stored record keeps
`weight-loss`. -/
theorem tabClick_not_persisted :
    inSync (saveState freshWorld) ∧
    (tabClick "yoga" (saveState freshWorld)).appState.category = "yoga" ∧
    (tabClick "yoga" (saveState freshWorld)).storage = some (stringify initialAppState) ∧
    (stringify initialAppState).category = some "weight-loss" ∧
    ¬ inSync (tabClick "yoga" (saveState freshWorld)) := by
  decide

/-- C7 fails on an empty result list: the geocoder answering `{ "results": [] }`
makes `fetchAQI` raise a `TypeError`, not `City not found`; no air-quality request
is issued. -/
theorem fetchAQI_empty_results_typeError :
    (fetchAQI emptyResultsServices "Zzzzznotacity" freshWorld).console = [.typeError] ∧
    (fetchAQI emptyResultsServices "Zzzzznotacity" freshWorld).console ≠
      [.error "City not found"] ∧
    (fetchAQI emptyResultsServices "Zzzzznotacity" freshWorld).requests =
      [.geocode "Zzzzznotacity"] := by
  decide

/-- C8, as stated, fails: an air-quality payload whose `current` object holds no
reading is not of the specified shape, yet `fetchAQI` sets `currentCity` and
persists it. -/
theorem fetchAQI_commits_on_empty_reading :
    emptyReadingServices.geocode "Paris" = .json ⟨some [parisCandidate]⟩ ∧
    emptyReadingServices.airQuality parisCandidate.latitude parisCandidate.longitude =
      .json ⟨some ⟨.undefined, .undefined, .undefined⟩⟩ ∧
    AirData.wellFormed ⟨some ⟨.undefined, .undefined, .undefined⟩⟩ = false ∧
    freshWorld.appState.currentCity = none ∧
    (fetchAQI emptyReadingServices "Paris" freshWorld).appState.currentCity = some "Paris" ∧
    (fetchAQI emptyReadingServices "Paris" freshWorld).storage ≠ freshWorld.storage := by
  decide

/-- C8, amended: `fetchAQI` leaves the session state, in memory and persisted, as it
was when the geocoding request fails, its body is not JSON, or its result list is
absent or empty, and when the air-quality request fails, its body is not JSON or
holds no `current` object; when the geocoder returns a candidate and the payload
holds a `current` object, `currentCity` becomes the name of the first candidate,
the other three fields are kept and the state is persisted. -/
theorem fetchAQI_state (sv : Services) (city : String) (w : World) :
    ((sv.geocode city = .networkError ∨ sv.geocode city = .invalidJson ∨
        sv.geocode city = .json ⟨none⟩ ∨ sv.geocode city = .json ⟨some []⟩) →
      (fetchAQI sv city w).appState = w.appState ∧
      (fetchAQI sv city w).storage = w.storage) ∧
    (∀ (c : GeoCandidate) (rest : List GeoCandidate),
      sv.geocode city = .json ⟨some (c :: rest)⟩ →
      ((sv.airQuality c.latitude c.longitude = .networkError ∨
          sv.airQuality c.latitude c.longitude = .invalidJson ∨
          sv.airQuality c.latitude c.longitude = .json ⟨none⟩) →
        (fetchAQI sv city w).appState = w.appState ∧
        (fetchAQI sv city w).storage = w.storage) ∧
      (∀ cur : AirCurrent, sv.airQuality c.latitude c.longitude = .json ⟨some cur⟩ →
        (fetchAQI sv city w).appState = { w.appState with currentCity := some c.name } ∧
        (fetchAQI sv city w).storage =
          some (stringify { w.appState with currentCity := some c.name }))) := by
  refine ⟨?_, ?_⟩
  · intro h
    rcases h with h | h | h | h <;>
      simp [fetchAQI, fetchAQITry, h, showError, setStatus]
  · intro c rest hgeo
    refine ⟨?_, ?_⟩
    · intro h
      rcases h with h | h | h <;>
        simp [fetchAQI, fetchAQITry, getAirData, updateDashboard, hgeo, h, showError,
          setStatus]
    · intro cur h
      simp [fetchAQI, fetchAQITry, getAirData, updateDashboard, hgeo, h, setStatus,
        saveState]

/-- Witness of the amended C8: the Paris scenario commits `Paris`, and a failing
air-quality request commits nothing. -/
theorem fetchAQI_state_witness :
    (fetchAQI parisServices "Paris" freshWorld).appState =
      { freshWorld.appState with currentCity := some "Paris" } ∧
    (fetchAQI airDownServices "Paris" freshWorld).appState = freshWorld.appState ∧
    (fetchAQI airDownServices "Paris" freshWorld).storage = freshWorld.storage :=
  ⟨(((fetchAQI_state parisServices "Paris" freshWorld).2 parisCandidate [] rfl).2
      ⟨.num 75, .num 30, .num 20⟩ rfl).1,
    ((fetchAQI_state airDownServices "Paris" freshWorld).2 parisCandidate [] rfl).1
      (Or.inl rfl)⟩

/-- C9 fails on the geolocation path: with device coordinates and a failing
air-quality request, `getUserLocation` leaves `#error-message` empty and hidden, the
status at `Locating...`, and the rejection unhandled; the message is not shown. -/
theorem getUserLocation_failure_silent :
    (getUserLocation airDownServices (.position 4885 235) freshWorld).dashboard.errorHidden =
      true ∧
    (getUserLocation airDownServices (.position 4885 235) freshWorld).dashboard.errorText =
      "" ∧
    (getUserLocation airDownServices (.position 4885 235) freshWorld).dashboard.errorText ≠
      loadFailedMessage ∧
    (getUserLocation airDownServices (.position 4885 235) freshWorld).dashboard.statusText =
      "Locating..." ∧
    (getUserLocation airDownServices (.position 4885 235) freshWorld).unhandled =
      [.network] ∧
    (fetchAQI airDownServices "Paris" freshWorld).dashboard.errorText = loadFailedMessage := by
  decide

/-- C10: for a first geocoder candidate with name `n` and country `c` and a reading
with `us_aqi` in `(50,100]`, `fetchAQI` displays the label `n, c`, the tier
`Moderate`, the advice `Monitor sensitive individuals` and the item to avoid
`Burning waste outdoors`; for Paris, France and 75 the label is `Paris, France`. -/
theorem fetchAQI_moderate (sv : Services) (city : String) (w : World)
    (c : GeoCandidate) (rest : List GeoCandidate) (cur : AirCurrent) (aqi : Int)
    (hgeo : sv.geocode city = .json ⟨some (c :: rest)⟩)
    (hair : sv.airQuality c.latitude c.longitude = .json ⟨some cur⟩)
    (haqi : cur.us_aqi = .num aqi) (hlo : 50 < aqi) (hhi : aqi ≤ 100) :
    (fetchAQI sv city w).dashboard.cityName = c.name ++ ", " ++ c.country ∧
    (fetchAQI sv city w).dashboard.statusText = "Moderate" ∧
    (fetchAQI sv city w).dashboard.advice.doList = ["Monitor sensitive individuals"] ∧
    (fetchAQI sv city w).dashboard.advice.avoid = ["Burning waste outdoors"] ∧
    (fetchAQI parisServices "Paris" freshWorld).dashboard.cityName = "Paris, France" := by
  have h1 : ¬ aqi ≤ 50 := by omega
  have hmeta : getAQIMeta (.num aqi) = ⟨"Moderate", "moderate", "border-moderate"⟩ := by
    simp [getAQIMeta, jsLe, h1, hhi]
  have hadv : updateInsights "moderate" =
      ⟨["Monitor sensitive individuals"], ["Burning waste outdoors"]⟩ := by decide
  refine ⟨?_, ?_, ?_, ?_, by decide⟩ <;>
    simp [fetchAQI, fetchAQITry, getAirData, updateDashboard, hgeo, hair, haqi, hmeta, hadv,
      setStatus, saveState]

/-- Witness of C10: the Paris scenario of the specification. -/
theorem fetchAQI_moderate_witness :
    (50 : Int) < 75 ∧ (75 : Int) ≤ 100 ∧
    (fetchAQI parisServices "Paris" freshWorld).dashboard.statusText = "Moderate" ∧
    (fetchAQI parisServices "Paris" freshWorld).dashboard.advice.doList =
      ["Monitor sensitive individuals"] ∧
    (fetchAQI parisServices "Paris" freshWorld).dashboard.advice.avoid =
      ["Burning waste outdoors"] :=
  ⟨by decide, by decide,
    (fetchAQI_moderate parisServices "Paris" freshWorld parisCandidate []
      ⟨.num 75, .num 30, .num 20⟩ 75 rfl rfl rfl (by decide) (by decide)).2.1,
    (fetchAQI_moderate parisServices "Paris" freshWorld parisCandidate []
      ⟨.num 75, .num 30, .num 20⟩ 75 rfl rfl rfl (by decide) (by decide)).2.2.1,
    (fetchAQI_moderate parisServices "Paris" freshWorld parisCandidate []
      ⟨.num 75, .num 30, .num 20⟩ 75 rfl rfl rfl (by decide) (by decide)).2.2.2.1⟩

end AirAware
